import Mathlib

/-!
Shallow embedding of the salesagent repository's merge/validation core:

* `src/services/validation_service.py`  (ValidationService)
* `src/services/navigation_state.py`    (NavigationStateMachine)
* `src/orchestration/lead_enrichment_orchestrator.py` (LeadEnrichmentOrchestrator)

Python floats are modelled as `Rat` (all confidence arithmetic here is
finite products of small decimal literals, where rational arithmetic agrees
with the comparisons the code makes).  Python dicts that carry contacts are
modelled as structures whose optional keys are `Option` fields.  `\w`,
`str.isalnum` etc. are modelled on the ASCII alphabet, which covers every
string the theorems below evaluate.
-/

namespace SalesAgent

/-! ## Python string semantics helpers -/

/-- ASCII model of Python's regex `\w` class: `[A-Za-z0-9_]`. -/
def isWordChar (c : Char) : Bool :=
  c.isAlpha || c.isDigit || c = '_'

/-- Character class `[\w\.-]` used by the basic email regex. -/
def isLocalChar (c : Char) : Bool :=
  isWordChar c || c = '.' || c = '-'

/-- ASCII lower-casing of one character (Python `str.lower` restricted to
the ASCII range the evaluated strings use). -/
def lowerChar (c : Char) : Char :=
  if c.isUpper then Char.ofNat (c.toNat + 32) else c

/-- ASCII model of `str.lower()`. -/
def lowerStr (s : String) : String := ⟨s.data.map lowerChar⟩

/-- Split a character list at every separator matching `p`, keeping empty
fields, like Python `str.split(sep)`. -/
def charSplit (p : Char → Bool) : List Char → List (List Char)
  | [] => [[]]
  | c :: rest =>
      let r := charSplit p rest
      if p c then [] :: r
      else
        match r with
        | [] => [[c]]
        | g :: gs => (c :: g) :: gs

/-- Python `suffix`-test `s.endswith(t)`. -/
def strEndsWith (s t : String) : Bool := t.data.isSuffixOf s.data

/-- Python's truthiness for an optional string: `None` and `""` are falsy. -/
def truthyStr (o : Option String) : Bool :=
  !(o.getD "").data.isEmpty

/-- Model of `needle in hay` for Python strings (substring containment). -/
def strContains (hay needle : String) : Bool :=
  (List.range (hay.data.length + 1)).any fun i =>
    needle.data.isPrefixOf (hay.data.drop i)

/-- Python `str.split()` with no argument: split on whitespace runs,
dropping empty fields. -/
def splitWs (s : String) : List String :=
  ((charSplit Char.isWhitespace s.data).filter (fun g => !g.isEmpty)).map
    (fun cs => ⟨cs⟩)

/-- Model of `email.split('@')` -/
def splitAt' (s : String) : List String :=
  (charSplit (fun c => c = '@') s.data).map (fun cs => ⟨cs⟩)

/-- Model of `email.split('@')[0]` (never raises: `split` yields at least one part). -/
def localPart (email : String) : String := (splitAt' email).headD ""

/-- Model of `email.split('@')[1]`; callers must know a `'@'` is present, otherwise
the Python code raises `IndexError` (modelled at each call site). -/
def emailDomain (email : String) : String := (splitAt' email).getD 1 ""

/-- Whether `email.split('@')[1]` raises `IndexError` (no `'@'` in the string). -/
def emailDomainRaises (email : String) : Bool := (splitAt' email).length < 2

/-!
The basic email regex `^[\w\.-]+@[\w\.-]+\.\w+$`
(`ValidationService.__init__`, validation_service.py line 25).
A string matches iff it splits as `L ++ "@" ++ M ++ "." ++ T` with
`L`, `M` nonempty over `[\w.-]` and `T` nonempty over `\w`; the existential
over split points is exactly the regex engine's backtracking search.
-/

/-- Matcher for the tail `[\w\.-]+\.\w+$` of the basic email regex. -/
def emailTailMatch (cs : List Char) : Bool :=
  (List.range cs.length).any fun j =>
    cs.getD j ' ' = '.' &&
    0 < j && (cs.take j).all isLocalChar &&
    j + 1 < cs.length && (cs.drop (j + 1)).all isWordChar

/-- Model of `self.email_pattern.match(email)` for `^[\w\.-]+@[\w\.-]+\.\w+$`. -/
def emailRegexMatch (s : String) : Bool :=
  let cs := s.data
  (List.range cs.length).any fun i =>
    cs.getD i ' ' = '@' &&
    0 < i && (cs.take i).all isLocalChar &&
    emailTailMatch (cs.drop (i + 1))

/-! ## Learned email-format patterns (validation_service.py lines 196-257)

`_generate_pattern` maps every character of a local part to `[a-zA-Z]`,
`\d` or its `re.escape`; `_merge_patterns` splits patterns on the literal
`\.` (the escaped dots), merging segment-wise with `(?:A|B)` alternation
and `(?:A)?` optional wrapping.  We represent a pattern as its parse tree:
a dot-separated list of parts, each part built from character tokens by
alternation/option.  Joining parts with `\.` and rendering tokens
reproduces the string the Python code stores, so structural equality below
corresponds to the string comparison `pattern1 == pattern2`. -/

/-- One token of a generated pattern: `[a-zA-Z]`, `\d`, or an escaped literal
character (never `'.'`, since dots separate parts). -/
inductive PatTok where
  | alpha : PatTok
  | digit : PatTok
  | lit : Char → PatTok
  deriving DecidableEq, Repr

/-- One dot-separated part of a learned pattern. -/
inductive PatPart where
  | toks : List PatTok → PatPart
  | alt : PatPart → PatPart → PatPart
  | opt : PatPart → PatPart
  deriving DecidableEq, Repr

/-- A learned pattern: its parts, joined in the stored string by `\.`. -/
def Pattern := List PatPart
  deriving DecidableEq

/-- Token for one character of a local-part segment (`_generate_pattern`). -/
def genTok (c : Char) : PatTok :=
  if c.isAlpha then .alpha else if c.isDigit then .digit else .lit c

/-- Model of `_generate_pattern` restricted to a dot-free segment. -/
def genSegment (cs : List Char) : PatPart := .toks (cs.map genTok)

/-- Model of `_generate_pattern(local_part)`: dots become the `\.` part separators. -/
def generatePattern (localp : String) : Pattern :=
  (charSplit (fun c => c = '.') localp.data).map genSegment

/-- Model of `_merge_pattern_parts` (lines 253-257): equal parts collapse, otherwise
`(?:p1|p2)`. -/
def mergePatternParts (p1 p2 : PatPart) : PatPart :=
  if p1 = p2 then p1 else .alt p1 p2

/-- Model of `_merge_patterns` (lines 227-251): segment-wise merge of the stored
pattern with the pattern generated from a new local part; unmatched
segments become optional. -/
def mergePatterns (current : Pattern) (newLocal : String) : Pattern :=
  let newParts := (charSplit (fun c => c = '.') newLocal.data).map genSegment
  (List.range (max current.length newParts.length)).map fun i =>
    match current.get? i, newParts.get? i with
    | some c, some n => mergePatternParts c n
    | some c, none => .opt c
    | none, some n => .opt n
    | none, none => .opt (.toks [])

/-- Does one token match one character? -/
def tokMatch : PatTok → Char → Bool
  | .alpha, c => c.isAlpha
  | .digit, c => c.isDigit
  | .lit l, c => l = c

/-- Deterministically consume a token sequence from the input. -/
def toksConsume : List PatTok → List Char → Option (List Char)
  | [], cs => some cs
  | _ :: _, [] => none
  | t :: ts, c :: cs => if tokMatch t c then toksConsume ts cs else none

/-- All remainders after matching one part (alternation/option are the only
nondeterminism, so a remainder list is an exhaustive backtracking search). -/
def partRemainders : PatPart → List Char → List (List Char)
  | .toks ts, cs => (toksConsume ts cs).toList
  | .alt p q, cs => partRemainders p cs ++ partRemainders q cs
  | .opt p, cs => cs :: partRemainders p cs

/-- Match the dot-joined parts against the input; `re.match` only anchors at
the start, so any leftover suffix is accepted at the end. -/
def partsMatch : List PatPart → List Char → Bool
  | [], _ => true
  | [p], cs => !(partRemainders p cs).isEmpty
  | p :: q :: ps, cs =>
      (partRemainders p cs).any fun rest =>
        match rest with
        | '.' :: rest' => partsMatch (q :: ps) rest'
        | _ => false

/-- Model of `re.match(pattern, local_part)` for a learned pattern. -/
def patternMatch (p : Pattern) (localp : String) : Bool :=
  partsMatch p localp.data

/-! ## ValidationService (validation_service.py)

State kept by the service that the orchestrator core reads:
`pattern_cache : dict[domain, pattern-string]`, modelled as an association
list from domain strings to parsed patterns.  `validation_history`, the
metrics counters and the disk persistence are not read by any code path a
claim mentions and are omitted.  Note the class defines **no**
`validation_cache` attribute (the attribute of that name lives on
`EmailExtractor` in email_extractor.py). -/

/-- Model of `pattern_cache` of `ValidationService`. -/
def PatternCache := List (String × Pattern)
  deriving DecidableEq

/-- Model of `dict.__contains__` / lookup for the pattern cache. -/
def cacheLookup (pc : PatternCache) (d : String) : Option Pattern :=
  match pc with
  | [] => none
  | (k, v) :: rest => if k = d then some v else cacheLookup rest d

/-- dict assignment `pattern_cache[domain] = pattern`. -/
def cacheInsert (pc : PatternCache) (d : String) (p : Pattern) : PatternCache :=
  match pc with
  | [] => [(d, p)]
  | (k, v) :: rest => if k = d then (d, p) :: rest else (k, v) :: cacheInsert rest d p

/-- Model of `ValidationResult` (validation_service.py lines 14-19); the timestamp
field is wall-clock metadata no claim reads and is omitted. -/
structure ValidationResult where
  is_valid : Bool
  confidence : Rat
  errors : List String
  deriving DecidableEq, Repr

/-- Model of `_update_pattern_learning(email)` (lines 196-213); its `try` swallows
every exception, leaving the cache unchanged, but callers below only reach
it with a `'@'` present, so the body always completes. -/
def updatePatternLearning (pc : PatternCache) (email : String) : PatternCache :=
  if emailDomainRaises email then pc
  else
    let d := emailDomain email
    let l := localPart email
    match cacheLookup pc d with
    | none => cacheInsert pc d (generatePattern l)
    | some current => cacheInsert pc d (mergePatterns current l)

/-- The condition for the domain-mismatch penalty (lines 97-101): a truthy
domain argument whose value differs from `email.split('@')[1]`. -/
def domainMismatches (domain : Option String) (email : String) : Bool :=
  truthyStr domain && emailDomain email ≠ domain.getD ""

/-- The condition for the learned-pattern penalty (lines 103-108): the
cache holds a pattern for the email's own domain and `re.match` fails on
the local part. -/
def patternFails (pc : PatternCache) (email : String) : Bool :=
  match cacheLookup pc (emailDomain email) with
  | none => false
  | some pat => !patternMatch pat (localPart email)

/-- Model of `validate_email(email, domain)` (validation_service.py
lines 85-126).  Returns the result together with the updated
`pattern_cache` (the call to `_update_pattern_learning` at line 116 runs
after the result is built but before it is returned).  When the email
contains no `'@'`, `email.split('@')[1]` (line 98 when a truthy domain is
supplied, line 104 otherwise) raises `IndexError`, landing in the `except`
branch that returns `is_valid=False, confidence=0.0` without learning. -/
def validateEmail (email : String) (domain : Option String) (pc : PatternCache) :
    ValidationResult × PatternCache :=
  if emailDomainRaises email then
    ({ is_valid := false, confidence := 0, errors := ["IndexError: list index out of range"] }, pc)
  else
    let formatOk := emailRegexMatch email
    let e1 : List String := if formatOk then [] else ["Invalid email format"]
    let c1 : Rat := if formatOk then 1 else 1 * (3 / 10)
    let e2 := if domainMismatches domain email then e1 ++ ["Email domain mismatch"] else e1
    let c2 := if domainMismatches domain email then c1 * (1 / 2) else c1
    let e3 := if patternFails pc email then e2 ++ ["Email doesn't match company pattern"] else e2
    let c3 := if patternFails pc email then c2 * (7 / 10) else c2
    ({ is_valid := e3.isEmpty, confidence := c3, errors := e3 },
     updatePatternLearning pc email)

/-! ## Navigation state machine (navigation_state.py) -/

/-- Model of `NavigationState` enum (lines 15-23); the constructor order and the
`.value` strings follow the source. -/
inductive NavState where
  | initial | searching | person_found | email_found
  | validating | retrying | error | complete
  deriving DecidableEq, Repr

/-- The `.value` string of each member. -/
def NavState.value : NavState → String
  | .initial => "initial"
  | .searching => "searching"
  | .person_found => "person_found"
  | .email_found => "email_found"
  | .validating => "validating"
  | .retrying => "retrying"
  | .error => "error"
  | .complete => "complete"

/-- Model of `NavigationState[name]`: Python `Enum.__getitem__`, which looks a member
up by its **name** (`INITIAL`, `SEARCHING`, ...), not by its value;
`none` models the `KeyError` raised for any other string. -/
def navStateFromName : String → Option NavState
  | "INITIAL" => some .initial
  | "SEARCHING" => some .searching
  | "PERSON_FOUND" => some .person_found
  | "EMAIL_FOUND" => some .email_found
  | "VALIDATING" => some .validating
  | "RETRYING" => some .retrying
  | "ERROR" => some .error
  | "COMPLETE" => some .complete
  | _ => none

/-- Model of `NavigationContext` (lines 25-38); `start_time`, `timeout_seconds` and
`parallel_tasks` belong to the background monitors no claim exercises and
are omitted.  `action_history` holds JSON dicts the state machine itself
never writes; its entries are modelled as opaque strings. -/
structure NavContext where
  current_state : NavState
  target_company : String
  target_role : String
  found_person : Option String := none
  found_email : Option String := none
  attempts : Nat := 0
  max_attempts : Nat := 3
  confidence_score : Rat := 0
  action_history : List String := []
  deriving DecidableEq, Repr

/-- An `action_result` event dict, with one field per key the handlers read.
Plain `Bool` fields model the truthiness of `.get(key)`;
`validation_success` is kept tri-state because `_handle_email_found` tests
`is False` (key present and exactly `False`) while `_handle_validating`
tests truthiness. -/
structure NavEvent where
  success : Bool := false
  person_found : Option String := none
  email_found : Option String := none
  validation_success : Option Bool := none
  retry_needed : Bool := false
  reset : Bool := false
  retry : Bool := false
  deriving DecidableEq, Repr

/-- Model of `_handle_email_found` (lines 139-145). -/
def handleEmailFound (ctx : NavContext) (e : NavEvent) : NavContext :=
  let ctx := { ctx with found_email := e.email_found }
  if e.validation_success = some false then
    { ctx with current_state := .retrying }
  else
    { ctx with current_state := .complete }

/-- Model of `transition(action_result)` (lines 99-110) dispatched through
`state_transitions` to the per-state handlers (lines 112-172).  The
persistence write after the handler does not alter the context. -/
def transition (ctx : NavContext) (e : NavEvent) : NavContext :=
  match ctx.current_state with
  | .initial =>
      if e.success then { ctx with current_state := .searching }
      else { ctx with current_state := .error }
  | .searching =>
      if truthyStr e.person_found then
        { ctx with found_person := e.person_found, current_state := .person_found }
      else if ctx.attempts ≥ ctx.max_attempts then
        { ctx with current_state := .error }
      else
        { ctx with attempts := ctx.attempts + 1 }
  | .person_found =>
      if truthyStr e.email_found then
        handleEmailFound { ctx with found_email := e.email_found } e
      else if ctx.attempts ≥ ctx.max_attempts then
        { ctx with current_state := .error }
      else
        { ctx with attempts := ctx.attempts + 1 }
  | .email_found => handleEmailFound ctx e
  | .validating =>
      if e.validation_success.getD false then
        { ctx with current_state := .complete }
      else if e.retry_needed then
        { ctx with current_state := .retrying }
      else
        { ctx with current_state := .error }
  | .retrying =>
      let ctx := { ctx with attempts := 0 }
      if e.reset then { ctx with current_state := .initial }
      else { ctx with current_state := .searching }
  | .error =>
      if e.retry then
        { ctx with current_state := .retrying, attempts := 0 }
      else ctx
  | .complete => ctx

/-- The snapshot dict `_save_state` writes (lines 207-225); the trailing
wall-clock `timestamp` field is omitted. -/
structure SavedState where
  current_state : String
  target_company : String
  target_role : String
  found_person : Option String
  found_email : Option String
  attempts : Nat
  confidence_score : Rat
  action_history : List String
  deriving DecidableEq, Repr

/-- Model of `_save_state` (lines 207-225): stores `self.context.current_state.value`. -/
def saveState (ctx : NavContext) : SavedState :=
  { current_state := ctx.current_state.value
    target_company := ctx.target_company
    target_role := ctx.target_role
    found_person := ctx.found_person
    found_email := ctx.found_email
    attempts := ctx.attempts
    confidence_score := ctx.confidence_score
    action_history := ctx.action_history }

/-- Model of `load_state` (lines 227-246) applied to the snapshot on disk:
reconstructs the context via `NavigationState[state_data['current_state']]`.
Only `FileNotFoundError` is caught, so the `KeyError` a failed member
lookup raises propagates to the caller (modelled as `Except.error`). -/
def loadState (s : SavedState) : Except String NavContext :=
  match navStateFromName s.current_state with
  | none => .error "KeyError"
  | some st =>
      .ok { current_state := st
            target_company := s.target_company
            target_role := s.target_role
            found_person := s.found_person
            found_email := s.found_email
            attempts := s.attempts
            confidence_score := s.confidence_score
            action_history := s.action_history }

/-! ## LeadEnrichmentOrchestrator (lead_enrichment_orchestrator.py) -/

/-- The two configured sources (`source_weights` keys, lines 85-88). -/
inductive Source where
  | apollo | rocketreach
  deriving DecidableEq, Repr

/-- Model of `self.source_weights` (lines 85-88). -/
def sourceWeight : Source → Rat
  | .apollo => 3 / 5
  | .rocketreach => 2 / 5

/-- Model of `min_confidence_threshold` (line 79). -/
def minConfidenceThreshold : Rat := 7 / 10

/-- Model of `ApolloAutonomousAgent.TARGET_TITLES` (apollo_autonomous_agent.py
lines 26-34), read by the orchestrator via `self.apollo_agent`. -/
def TARGET_TITLES : List String :=
  ["Chief Executive Officer", "CEO", "President", "Chief Financial Officer",
   "CFO", "Director of Finance", "Director of FP&A"]

/-- Model of `any(title.lower() in result.get('title','').lower() for title in
TARGET_TITLES)` (orchestrator lines 365-368 and 425-426). -/
def titleMatches (title : String) : Bool :=
  TARGET_TITLES.any fun t => strContains (lowerStr title) (lowerStr t)

/-- A contact dict as it flows through the orchestrator.  `name` and
`title` are the always-present keys of the source agents' raw candidates
(spec section 6 `RawContact`; both autonomous agents build them
unconditionally); `email` and `confidence` are their optional keys, and
`sources`, `validated`, `cross_validated`, `validation_score` are the keys
the merge/validation pipeline itself may add, absent (`none`) on raw
candidates. -/
structure Contact where
  name : String := ""
  title : String := ""
  email : Option String := none
  confidence : Option Rat := none
  sources : Option (List Source) := none
  validated : Option Bool := none
  cross_validated : Option Bool := none
  validation_score : Option Rat := none
  deriving DecidableEq, Repr

/-- Exceptions the orchestrator's `try`/`except` blocks absorb. -/
inductive PyExc where
  | keyError | attributeError | typeError | zeroDivisionError | indexError
  deriving DecidableEq, Repr

/-- Model of `_validate_contact_info(result, domain)` (lines 361-405), returning the
verdict together with the validation service's pattern cache as mutated by
the `validate_email` call at line 379 (pattern learning runs before the
pattern check at lines 386-389, which therefore sees the updated cache).
`result.get('email')` being `None` or `''` is falsy and returns `False`
before `validate_email` is reached. -/
def validateContactInfo (c : Contact) (domain : String) (pc : PatternCache) :
    Bool × PatternCache :=
  let titleValid := titleMatches c.title
  let nameValid := (splitWs c.name).length ≥ 2
  let e := c.email.getD ""
  if e.data.isEmpty then (false, pc)
  else
    let ev := validateEmail e (some domain) pc
    let patternValid :=
      match cacheLookup ev.2 domain with
      | none => true
      | some pat => patternMatch pat (localPart e)
    (titleValid && nameValid && ev.1.is_valid && patternValid, ev.2)

/-- The `try` body of `_calculate_confidence` (lines 409-435).  It raises
on every path: when the dict has no `'sources'` key (the merge loop calls
this before it sets one) the access `result['sources']` at line 414 raises
`KeyError`; otherwise line 430 reads
`self.validation_service.validation_cache`, an attribute `ValidationService`
never defines (the only `validation_cache` in the repository belongs to
`EmailExtractor`), raising `AttributeError`. -/
def calculateConfidenceBody (c : Contact) (domain : String) : Except PyExc Rat := do
  let base := c.confidence.getD (1 / 2)
  let sources ← match c.sources with
    | none => throw PyExc.keyError
    | some s => pure s
  if sources.isEmpty then throw PyExc.zeroDivisionError
  let sourceWeightAvg := (sources.map sourceWeight).sum / (sources.length : Rat)
  let w := base * sourceWeightAvg
  let w := if strEndsWith (c.email.getD "") domain then w * (11 / 10) else w
  let w := if titleMatches c.title then w * (11 / 10) else w
  let _ := w
  throw PyExc.attributeError

/-- Model of `_calculate_confidence` (lines 407-439): the `except` handler turns
every failure of the body into the `0.5` fallback. -/
def calculateConfidence (c : Contact) (domain : String) : Rat :=
  match calculateConfidenceBody c domain with
  | .ok w => min w 1
  | .error _ => 1 / 2

/-- Result of one source agent task as `asyncio.gather(...,
return_exceptions=True)` hands it to `_merge_results` (lines 170-174):
either the list the agent returned, or the `OrchestrationError` object
`_retry_failed_search` raised after exhausting its retries. -/
inductive AgentOutcome where
  | results : List Contact → AgentOutcome
  | raised : AgentOutcome
  deriving DecidableEq, Repr

/-- One source loop of `_merge_results` (lines 302-318 and 320-336) up to
its first uncaught exception.  For each candidate it runs
`_validate_contact_info` (threading the pattern cache); the first
candidate that passes reaches `key = self._generate_result_key(result)`
(line 307/325), and `LeadEnrichmentOrchestrator` defines no
`_generate_result_key` method (the only one in the repository is on
`ResultCollector`), so that line raises `AttributeError`.  Candidates that
fail validation are skipped by the `continue`.  Returns the cache after
the candidates examined, and whether the exception fired. -/
def mergeScan (candidates : List Contact) (domain : String) (pc : PatternCache) :
    PatternCache × Bool :=
  match candidates with
  | [] => (pc, false)
  | c :: rest =>
      let v := validateContactInfo c domain pc
      if v.1 then (v.2, true) else mergeScan rest domain v.2

/-- Model of `_merge_results(apollo_results, rocket_results, domain)`
(lines 292-359), returning the merged list and the pattern cache.  The
possible executions of the `try` body:

* a failed source's entry is an `OrchestrationError` object, and
  `for result in apollo_results` (line 303) / `... rocket_results`
  (line 321) raises `TypeError` on it;
* otherwise the first candidate passing `_validate_contact_info` raises
  `AttributeError` at the `_generate_result_key` call (see `mergeScan`);
* if no candidate validates, the loops complete with `merged` still the
  empty dict, so the threshold filter and sort (lines 339-353) return `[]`.

Every exception lands in the `except` at lines 355-359, which returns
`[]`; hence the function returns the empty list on all inputs. -/
def mergeResults (apollo rocket : AgentOutcome) (domain : String)
    (pc : PatternCache) : List Contact × PatternCache :=
  match apollo with
  | .raised => ([], pc)
  | .results la =>
      let s1 := mergeScan la domain pc
      if s1.2 then ([], s1.1)
      else
        match rocket with
        | .raised => ([], s1.1)
        | .results lr => ([], (mergeScan lr domain s1.1).1)

/-- Model of `_check_email_format(email)` (lines 594-615).  The tuple unpacking
`local, domain = email.split('@')` raises `ValueError` unless the split
has exactly two parts, and that `ValueError` is caught by the local
`except`, returning `False`. -/
def checkEmailFormat (email : String) : Bool :=
  let parts := splitAt' email
  if parts.length ≠ 2 then false
  else
    let l := parts.headD ""
    let d := parts.getD 1 ""
    (l.data.all fun c => c.isAlpha || c.isDigit || c = '.' || c = '-' || c = '_') &&
    !(l.data.headD ' ' = '.') && !(l.data.getLastD ' ' = '.') &&
    !strContains l ".." && !strContains d ".."

/-- Model of `_compute_validation_score(result, domain)` (lines 488-514), reached
with `email` and `sources` present; `result['email'].split('@')[1]`
(line 499) raises `IndexError` when the email has no `'@'`, which
propagates to the caller's `except` (modelled as `Except.error`). -/
def computeValidationScore (email : String) (title : String)
    (sources : List Source) (domain : String) : Except PyExc Rat := do
  let s1 : Rat := if checkEmailFormat email then 1 else 0
  if emailDomainRaises email then throw PyExc.indexError
  let s2 : Rat := if emailDomain email = domain then 1 else 0
  let s3 : Rat := if titleMatches title then 1 else 0
  let s4 : Rat := if sources.length > 1 then 1 else 0
  pure ((s1 + s2 + s3 + s4) / 4)

/-- One iteration of the `_cross_validate_results` loop (lines 449-484):
`none` means the contact was dropped (either by an exception landing in
the per-contact `except`, or by failing the threshold check at line 477).
Exceptions modelled: `result['email']` (line 457) with the key absent,
`result['sources']` (line 463) with the key absent, `result['confidence']`
(line 464) with the key absent, and the `IndexError` out of
`_compute_validation_score`.  The `validate_email` call at line 457 runs
before any of the later accesses, so its pattern-cache mutation survives a
subsequent drop. -/
def crossValidateStep (domain : String) (pc : PatternCache) (c : Contact) :
    Option Contact × PatternCache :=
  if c.validated.getD false then (some c, pc)
  else
    match c.email with
    | none => (none, pc)
    | some e =>
        let ev := (validateEmail e (some domain) pc).1
        let pc' := (validateEmail e (some domain) pc).2
        match c.sources with
        | none => (none, pc')
        | some srcs =>
            let boosted : Except PyExc Contact :=
              if srcs.length > 1 then
                match c.confidence with
                | none => throw PyExc.keyError
                | some conf =>
                    pure { c with confidence := some (conf * (12 / 10)),
                                  cross_validated := some true }
              else if ev.is_valid then
                match c.confidence with
                | none => throw PyExc.keyError
                | some conf =>
                    pure { c with confidence := some (conf * ev.confidence),
                                  cross_validated := some false }
              else pure c
            match boosted with
            | .error _ => (none, pc')
            | .ok c' =>
                match computeValidationScore e c'.title srcs domain with
                | .error _ => (none, pc')
                | .ok score =>
                    let c'' := { c' with validation_score := some score }
                    if c''.confidence.getD 0 ≥ minConfidenceThreshold then
                      (some { c'' with validated := some true }, pc')
                    else (none, pc')

/-- Model of `_cross_validate_results(results, domain)` (lines 441-486): the loop
over contacts, threading the validation service's pattern cache. -/
def crossValidateResults (domain : String) (pc : PatternCache) :
    List Contact → List Contact × PatternCache
  | [] => ([], pc)
  | c :: rest =>
      let s := crossValidateStep domain pc c
      let t := crossValidateResults domain s.2 rest
      match s.1 with
      | some c' => (c' :: t.1, t.2)
      | none => t

/-- Model of `EnrichmentResult` (lines 38-48) restricted to the fields some claim
reads; `found_at`, the metrics dicts and `processing_time` are wall-clock
and counter metadata. -/
structure EnrichmentResult where
  company_name : String
  contacts : List Contact
  error_details : Option String := none
  deriving DecidableEq, Repr

/-- Cache TTL: `timedelta(hours=24)` in seconds. -/
def cacheTTL : Nat := 86400

/-- Orchestrator state a claim can observe: the in-memory `result_cache`
(key, result, timestamp in seconds), the disk cache directory's files
(same shape: the JSON file stores the result dict plus a timestamp), and
the validation service's pattern cache.  Metrics counters are omitted. -/
structure OrchState where
  memCache : List (String × EnrichmentResult × Nat) := []
  diskCache : List (String × EnrichmentResult × Nat) := []
  patterns : PatternCache := []
  deriving DecidableEq

/-- Association-list lookup (first binding wins, like a Python dict whose
assignment below removes the old binding). -/
def assocLookup (l : List (String × EnrichmentResult × Nat)) (k : String) :
    Option (EnrichmentResult × Nat) :=
  match l with
  | [] => none
  | (k', v) :: rest => if k' = k then some v else assocLookup rest k

/-- dict assignment / cache-file overwrite. -/
def assocInsert (l : List (String × EnrichmentResult × Nat)) (k : String)
    (v : EnrichmentResult × Nat) : List (String × EnrichmentResult × Nat) :=
  (k, v) :: l.filter (fun p => p.1 ≠ k)

/-- Model of `del self.result_cache[cache_key]`. -/
def assocErase (l : List (String × EnrichmentResult × Nat)) (k : String) :
    List (String × EnrichmentResult × Nat) :=
  l.filter (fun p => p.1 ≠ k)

/-- Model of `_check_cache(cache_key)` (lines 541-563) at wall-clock second `now`:
memory cache first (`cached.is_valid` is `now - timestamp < ttl`; an
invalid entry is deleted and the disk cache consulted), then the disk file
(valid when `timestamp + 24h > now`; stale files are skipped, not
deleted). -/
def checkCache (st : OrchState) (key : String) (now : Nat) :
    Option EnrichmentResult × OrchState :=
  match assocLookup st.memCache key with
  | some (r, ts) =>
      if now - ts < cacheTTL then (some r, st)
      else
        let st' := { st with memCache := assocErase st.memCache key }
        match assocLookup st'.diskCache key with
        | some (r', ts') => if ts' + cacheTTL > now then (some r', st') else (none, st')
        | none => (none, st')
  | none =>
      match assocLookup st.diskCache key with
      | some (r', ts') => if ts' + cacheTTL > now then (some r', st) else (none, st)
      | none => (none, st)

/-- Model of `_cache_result(cache_key, result)` (lines 565-592): the memory insert
always happens; the disk write runs `json.dumps` on the contacts, which
raises `TypeError` on any `set` object (a contact's `'sources'` value), an
exception the local `except` absorbs after the memory insert, leaving the
disk file unwritten.  Note `enrich_company` never actually reaches its
call site at line 229: building the `EnrichmentResult` at lines 219-226
raises first (see `enrichCompany`); the method is modelled for
completeness. -/
def cacheResult (st : OrchState) (key : String) (r : EnrichmentResult)
    (now : Nat) : OrchState :=
  let st' := { st with memCache := assocInsert st.memCache key (r, now) }
  if r.contacts.all (fun c => c.sources.isNone) then
    { st' with diskCache := assocInsert st'.diskCache key (r, now) }
  else st'

/-- The message of the `AttributeError` raised at line 222. -/
def getSourceMetricsError : String :=
  "'LeadEnrichmentOrchestrator' object has no attribute '_get_source_metrics'"

/-- Model of `enrich_company(company_name, domain, force_refresh)` (lines 122-251)
with the two source-agent tasks' settled outcomes and the wall clock as
parameters.  The returned `Bool` records whether the pipeline dispatched
the source agents (false exactly on the cache-hit early return at
line 138, which precedes task creation).  `cross_validation_required`
is `True` from the constructor (line 80), so the `_cross_validate_results`
branch always runs; exceptions inside merge/validation are absorbed
locally (see those functions).  The try body then fails unconditionally:
building the success `EnrichmentResult` (lines 219-226) evaluates
`self._get_source_metrics()` at line 222, and the class defines no
`_get_source_metrics` (nor `_get_validation_scores`,
`_get_performance_metrics`; the repository's only occurrences are these
call sites and line 742), so `AttributeError` lands in the top-level
`except` (lines 235-245), which returns an error result with empty
contacts and `error_details` set.  `_cache_result` at line 229 is never
reached, so the memory and disk caches are not written; the validation
service's pattern-cache mutations made during merge and cross-validation
survive (the shared service object is not rolled back). -/
def enrichCompany (st : OrchState) (company domain : String)
    (forceRefresh : Bool) (apollo rocket : AgentOutcome) (now : Nat) :
    EnrichmentResult × OrchState × Bool :=
  let key := company ++ ":" ++ domain
  let ac : Option EnrichmentResult × OrchState :=
    if forceRefresh then (none, st) else checkCache st key now
  match ac.1 with
  | some cached => (cached, ac.2, false)
  | none =>
      let m := mergeResults apollo rocket domain ac.2.patterns
      let v := crossValidateResults domain m.2 m.1
      ({ company_name := company, contacts := [],
         error_details := some getSourceMetricsError },
       { ac.2 with patterns := v.2 }, true)

/-- Model of `_retry_failed_search` (lines 266-290).  The agent's `search_company`
is modelled as an oracle from the invocation index to `some results` or
`none` for a raised exception.  Returns the outcome, the number of calls
made, and the list of `asyncio.sleep` durations (`2 ** attempt` seconds,
line 283) in order. -/
def retrySearchGo (search : Nat → Option (List Contact)) :
    Nat → Nat → List Nat → Nat → AgentOutcome × Nat × List Nat
  | attempt, calls, sleeps, remaining =>
    match search calls with
    | some res => (.results res, calls + 1, sleeps)
    | none =>
        match remaining with
        | 0 => (.raised, calls + 1, sleeps)
        | r + 1 => retrySearchGo search (attempt + 1) (calls + 1)
            (sleeps ++ [2 ^ attempt]) r

/-- Model of `_retry_failed_search(search_func, search_param, source)` as
invoked once per source by `_rate_limited_search` (line 262) in one
`enrich_company` dispatch.  `remaining` starts at `2` and carries
`2 - attempt`, so `remaining = 0` is exactly the code's exit from
`attempt < 2` into the final `raise`. -/
def retryFailedSearch (search : Nat → Option (List Contact)) :
    AgentOutcome × Nat × List Nat :=
  retrySearchGo search 0 0 [] 2

/-! ## Concrete inputs used by the theorems below -/

/-- An apollo-style raw candidate (spec section 8, Scenario A). -/
def johnDoeApollo : Contact :=
  { name := "John Doe", title := "CFO", email := some "john@acme.com",
    confidence := some (9 / 10) }

/-- The rocketreach-style raw candidate with the same identity. -/
def johnDoeRocket : Contact :=
  { name := "john doe", title := "Chief Financial Officer",
    email := some "john@acme.com", confidence := some (9 / 10) }

/-- A merged multi-source contact as it would enter cross-validation. -/
def janeMultiSource : Contact :=
  { name := "Jane Roe", title := "CEO", email := some "jane@acme.com",
    confidence := some (9 / 10), sources := some [.apollo, .rocketreach] }

/-- A navigation context resting in the `COMPLETE` state. -/
def ctxComplete : NavContext :=
  { current_state := .complete, target_company := "Acme", target_role := "CFO" }

/-- A navigation context resting in the `ERROR` state. -/
def ctxError : NavContext :=
  { current_state := .error, target_company := "Acme", target_role := "CFO",
    attempts := 2 }

/-- The event dict `{retry: True}`. -/
def evRetry : NavEvent := { retry := true }

/-- An event dict carrying no truthy key. -/
def evPlain : NavEvent := {}

/-! ## Helper lemmas -/

/-- Every execution of `_merge_results` returns the empty contact list:
a failed source's exception object poisons the `for` loop, the first
validated candidate hits the missing `_generate_result_key` method, and
with no validated candidate the `merged` dict stays empty. -/
theorem mergeResults_fst (apollo rocket : AgentOutcome) (domain : String)
    (pc : PatternCache) : (mergeResults apollo rocket domain pc).1 = [] := by
  unfold mergeResults
  cases apollo with
  | raised => rfl
  | results la =>
      dsimp only
      split
      · rfl
      · cases rocket <;> rfl

/-- Confidence out of `validate_email` is never negative. -/
theorem validateEmail_conf_nonneg (email : String) (domain : Option String)
    (pc : PatternCache) : 0 ≤ ((validateEmail email domain pc).1).confidence := by
  unfold validateEmail
  split
  · norm_num
  · dsimp only
    split_ifs <;> norm_num

/-- Confidence out of `validate_email` never exceeds one. -/
theorem validateEmail_conf_le_one (email : String) (domain : Option String)
    (pc : PatternCache) : ((validateEmail email domain pc).1).confidence ≤ 1 := by
  unfold validateEmail
  split
  · norm_num
  · dsimp only
    split_ifs <;> norm_num

/-- A contact kept by one `_cross_validate_results` iteration has
confidence at most `1.2` provided it came in with confidence at most `1`. -/
theorem crossValidateStep_conf_bound (domain : String) (pc : PatternCache)
    (c c' : Contact) (hc : c.confidence.getD 0 ≤ 1)
    (h : (crossValidateStep domain pc c).1 = some c') :
    c'.confidence.getD 0 ≤ 6 / 5 := by
  unfold crossValidateStep at h
  by_cases hv : c.validated.getD false
  · rw [if_pos hv] at h
    cases h
    exact hc.trans (by norm_num)
  · rw [if_neg hv] at h
    cases he : c.email with
    | none => simp [he] at h
    | some e =>
        simp only [he] at h
        cases hs : c.sources with
        | none => simp [hs] at h
        | some srcs =>
            simp only [hs] at h
            by_cases hm : srcs.length > 1
            · simp only [hm, if_true] at h
              cases hcf : c.confidence with
              | none => simp [hcf] at h
              | some conf =>
                  simp only [hcf, pure, Except.pure] at h
                  have hconf : conf ≤ 1 := by simpa [hcf] using hc
                  split at h
                  · simp at h
                  · split at h
                    · cases h
                      simp only [Option.getD_some]
                      nlinarith
                    · simp at h
            · simp only [hm, if_false] at h
              by_cases hev : ((validateEmail e (some domain) pc).1).is_valid
              · simp only [hev, if_true] at h
                cases hcf : c.confidence with
                | none => simp [hcf] at h
                | some conf =>
                    simp only [hcf, pure, Except.pure] at h
                    have hconf : conf ≤ 1 := by simpa [hcf] using hc
                    have h2 := validateEmail_conf_nonneg e (some domain) pc
                    have h3 := validateEmail_conf_le_one e (some domain) pc
                    split at h
                    · simp at h
                    · split at h
                      · cases h
                        simp only [Option.getD_some]
                        nlinarith
                      · simp at h
              · simp only [hev, if_false, Bool.false_eq_true] at h
                simp only [pure, Except.pure] at h
                split at h
                · simp at h
                · split at h
                  · cases h
                    simpa using hc.trans (by norm_num)
                  · simp at h

/-! ## Claim theorems -/

/-- C1: two raw candidates with the same normalized identity key from
different sources, both passing contact validation, do NOT surface as a
merged contact: because `LeadEnrichmentOrchestrator` has no
`_generate_result_key` method, the first validated candidate raises
`AttributeError` inside `_merge_results` and the handler returns the empty
list, so no merged contact (with unioned sources) is produced at all. -/
theorem c1_identity_pair_dropped :
    (validateContactInfo johnDoeApollo "acme.com" []).1 = true ∧
    (validateContactInfo johnDoeRocket "acme.com" []).1 = true ∧
    (mergeResults (AgentOutcome.results [johnDoeApollo])
        (AgentOutcome.results [johnDoeRocket]) "acme.com" []).1 = [] := by
  exact ⟨by decide, by decide, mergeResults_fst _ _ _ _⟩

/-- Helper: the cross-validation loop started on the empty list keeps
nothing. -/
theorem crossValidateResults_nil (domain : String) (pc : PatternCache) :
    crossValidateResults domain pc [] = ([], pc) := rfl

/-- Helper: bound on every contact the cross-validation loop keeps, by
induction along the loop with the pattern cache threaded through. -/
theorem crossValidateResults_conf_bound (domain : String) :
    ∀ (l : List Contact) (pc : PatternCache),
      (∀ c ∈ l, c.confidence.getD 0 ≤ 1) →
      ∀ c ∈ (crossValidateResults domain pc l).1, c.confidence.getD 0 ≤ 6 / 5
  | [], pc, _, c, hc => by simp [crossValidateResults] at hc
  | c0 :: rest, pc, hin, c, hc => by
      simp only [crossValidateResults] at hc
      rcases hstep : (crossValidateStep domain pc c0).1 with _ | c'
      · rw [hstep] at hc
        exact crossValidateResults_conf_bound domain rest
          (crossValidateStep domain pc c0).2
          (fun x hx => hin x (List.mem_cons_of_mem _ hx)) c hc
      · rw [hstep] at hc
        dsimp only at hc
        rcases List.mem_cons.mp hc with h | h
        · subst h
          exact crossValidateStep_conf_bound domain pc c0 c
            (hin c0 (List.mem_cons_self _ _)) hstep
        · exact crossValidateResults_conf_bound domain rest
            (crossValidateStep domain pc c0).2
            (fun x hx => hin x (List.mem_cons_of_mem _ hx)) c h

/-- Helper: whenever `enrich_company` dispatches the source agents (cache
miss), the returned contact list is empty — the try body always ends in
the line-222 `AttributeError`, whose handler returns an error result with
`contacts=[]` (and independently, `_merge_results` already returns the
empty list on every input). -/
theorem enrichCompany_contacts_nil (st : OrchState) (company domain : String)
    (fr : Bool) (apollo rocket : AgentOutcome) (now : Nat)
    (h : (enrichCompany st company domain fr apollo rocket now).2.2 = true) :
    (enrichCompany st company domain fr apollo rocket now).1.contacts = [] := by
  simp only [enrichCompany] at h ⊢
  rcases hac : (if fr then ((none : Option EnrichmentResult), st)
      else checkCache st (company ++ ":" ++ domain) now).1 with _ | cached
  · rfl
  · rw [hac] at h
    simp at h

/-- Helper: a cache state with no memory and no disk entry for the key
misses. -/
theorem checkCache_miss (st : OrchState) (key : String) (now : Nat)
    (hmem : assocLookup st.memCache key = none)
    (hdisk : assocLookup st.diskCache key = none) :
    checkCache st key now = (none, st) := by
  unfold checkCache
  rw [hmem, hdisk]

/-- Helper: `_cache_result` always performs the memory insert, whether or
not the disk write succeeds. -/
theorem cacheResult_memCache (st : OrchState) (key : String)
    (r : EnrichmentResult) (now : Nat) :
    (cacheResult st key r now).memCache = assocInsert st.memCache key (r, now) := by
  unfold cacheResult
  split <;> rfl

/-- Helper: looking up the key just inserted finds it. -/
theorem assocLookup_insert (l : List (String × EnrichmentResult × Nat))
    (k : String) (v : EnrichmentResult × Nat) :
    assocLookup (assocInsert l k v) k = some v := by
  simp [assocInsert, assocLookup]

/-- Helper: a fresh cache write is a memory-cache hit within the TTL. -/
theorem checkCache_after_insert (st' : OrchState) (key : String)
    (r : EnrichmentResult) (t1 t2 : Nat) (httl : t2 - t1 < cacheTTL) :
    checkCache (cacheResult st' key r t1) key t2 = (some r, cacheResult st' key r t1) := by
  unfold checkCache
  rw [cacheResult_memCache, assocLookup_insert]
  dsimp only
  rw [if_pos httl]

/-- Helper: a memory-cache hit short-circuits `enrich_company` before the
agent tasks are created. -/
theorem enrichCompany_cache_hit (st : OrchState) (company domain : String)
    (a r : AgentOutcome) (now : Nat) (res : EnrichmentResult)
    (h : checkCache st (company ++ ":" ++ domain) now = (some res, st)) :
    enrichCompany st company domain false a r now = (res, st, false) := by
  simp [enrichCompany, h]

/-- C2: on every `enrich_company` call that reaches the merge and
cross-validation stages (equivalently: that dispatches the source agents),
each contact of the returned result has confidence at least the `0.7`
threshold.  It holds because every such call ends in the line-222
`AttributeError` and returns the top-level error result with an empty
contact list (see `enrichCompany_contacts_nil`); independently, the
cross-validation loop itself only keeps contacts passing the threshold
check (`crossValidateResults_conf_bound` shows the loop's own bound). -/
theorem c2_threshold_invariant (st : OrchState) (company domain : String)
    (fr : Bool) (apollo rocket : AgentOutcome) (now : Nat)
    (hreach : (enrichCompany st company domain fr apollo rocket now).2.2 = true) :
    ∀ c ∈ (enrichCompany st company domain fr apollo rocket now).1.contacts,
      minConfidenceThreshold ≤ c.confidence.getD 0 := by
  intro c hc
  rw [enrichCompany_contacts_nil st company domain fr apollo rocket now hreach] at hc
  simp at hc

/-- Witness for C2 at a concrete dispatching call. -/
theorem c2_threshold_invariant_witness :
    (enrichCompany {} "Acme" "acme.com" false
        (AgentOutcome.results [johnDoeApollo])
        (AgentOutcome.results [johnDoeRocket]) 0).2.2 = true ∧
    ∀ c ∈ (enrichCompany {} "Acme" "acme.com" false
        (AgentOutcome.results [johnDoeApollo])
        (AgentOutcome.results [johnDoeRocket]) 0).1.contacts,
      minConfidenceThreshold ≤ c.confidence.getD 0 :=
  ⟨by decide, c2_threshold_invariant {} "Acme" "acme.com" false
    (AgentOutcome.results [johnDoeApollo])
    (AgentOutcome.results [johnDoeRocket]) 0 (by decide)⟩

/-- C3: the idempotent-cache-read property fails on the code.  On a fresh
orchestrator, the first call's try body ends in the line-222
`AttributeError` before `_cache_result` (line 229) runs, so it writes
neither the memory nor the disk cache and returns an error-flagged result;
a second call 100 seconds later (well within the 24-hour TTL) with
`force_refresh=False` therefore misses the cache again and re-dispatches
the source agents instead of returning a cached result. -/
theorem c3_nothing_cached_second_call_dispatches :
    (enrichCompany {} "Acme" "acme.com" false
        (AgentOutcome.results [johnDoeApollo])
        (AgentOutcome.results [johnDoeRocket]) 0).2.1.memCache = [] ∧
    (enrichCompany {} "Acme" "acme.com" false
        (AgentOutcome.results [johnDoeApollo])
        (AgentOutcome.results [johnDoeRocket]) 0).2.1.diskCache = [] ∧
    (enrichCompany {} "Acme" "acme.com" false
        (AgentOutcome.results [johnDoeApollo])
        (AgentOutcome.results [johnDoeRocket]) 0).1.error_details.isSome = true ∧
    (enrichCompany (enrichCompany {} "Acme" "acme.com" false
          (AgentOutcome.results [johnDoeApollo])
          (AgentOutcome.results [johnDoeRocket]) 0).2.1
        "Acme" "acme.com" false
        (AgentOutcome.results [johnDoeApollo])
        (AgentOutcome.results [johnDoeRocket]) 100).2.2 = true :=
  ⟨by decide, by decide, by decide, by decide⟩

/-- C6 counterexample: the multi-source `×1.2` boost in
`_cross_validate_results` is not clamped, so a contact entering with
confidence `0.9` leaves the returned list with confidence
`1.08 = 27/25 > 1`. -/
theorem c6_cross_validation_exceeds_one :
    ((crossValidateResults "acme.com" [] [janeMultiSource]).1.map
      (fun c => c.confidence.getD 0)) = [27 / 25] ∧ ¬ ((27 : Rat) / 25 ≤ 1) := by
  constructor
  · norm_num +decide [crossValidateResults, crossValidateStep, janeMultiSource,
      computeValidationScore, minConfidenceThreshold, bind, Except.bind, pure,
      Except.pure, emailDomainRaises, splitAt', charSplit]
  · norm_num

/-- C6 (amended): `_calculate_confidence` always returns at most `1`
(its only outcomes are `min(..., 1.0)` and the `0.5` fallback), and the
contacts returned by `_cross_validate_results` are bounded by `1.2`
(not `1.0`) when every input confidence is at most `1`. -/
theorem c6_confidence_bounds (domain : String) (pc : PatternCache)
    (l : List Contact) (hin : ∀ c ∈ l, c.confidence.getD 0 ≤ 1) :
    (∀ c d, calculateConfidence c d ≤ 1) ∧
    ∀ c ∈ (crossValidateResults domain pc l).1, c.confidence.getD 0 ≤ 6 / 5 :=
  ⟨fun c d => by
      unfold calculateConfidence
      split
      · exact min_le_right _ _
      · norm_num,
   crossValidateResults_conf_bound domain l pc hin⟩

/-- Witness for C6 (amended) at the boosted multi-source contact. -/
theorem c6_confidence_bounds_witness :
    (∀ c ∈ [janeMultiSource], c.confidence.getD 0 ≤ 1) ∧
    ((∀ c d, calculateConfidence c d ≤ 1) ∧
      ∀ c ∈ (crossValidateResults "acme.com" [] [janeMultiSource]).1,
        c.confidence.getD 0 ≤ 6 / 5) :=
  ⟨by norm_num [janeMultiSource],
   c6_confidence_bounds "acme.com" [] [janeMultiSource] (by norm_num [janeMultiSource])⟩

/-- C9 counterexample: for an email without `'@'` the claimed `×0.3`
confidence is not produced; the `IndexError` branch returns confidence
`0.0` instead. -/
theorem c9_no_at_sign_zero_confidence :
    emailRegexMatch "janedoe" = false ∧
    ((validateEmail "janedoe" none []).1).confidence = 0 ∧
    ((validateEmail "janedoe" none []).1).confidence ≠ 3 / 10 := by
  refine ⟨by decide, by rfl, ?_⟩
  rw [show ((validateEmail "janedoe" none []).1).confidence = 0 from rfl]
  norm_num

/-- C9 (amended): for every email containing `'@'`, the confidence is the
product of the claimed multipliers (`×0.3` on regex failure, `×0.5` on a
truthy mismatching domain, `×0.7` on a learned-pattern failure for the
email's own domain), and `is_valid` holds exactly when no errors were
recorded, i.e. when all three checks pass; emails without `'@'` instead
hit the `IndexError` handler (see the counterexample). -/
theorem c9_email_multipliers (email : String) (domain : Option String)
    (pc : PatternCache) (hat : emailDomainRaises email = false) :
    ((validateEmail email domain pc).1).confidence =
      (if emailRegexMatch email then 1 else 3 / 10) *
      ((if domainMismatches domain email then 1 / 2 else 1) *
        (if patternFails pc email then 7 / 10 else 1)) ∧
    (((validateEmail email domain pc).1).is_valid = true ↔
      ((validateEmail email domain pc).1).errors = []) ∧
    ((validateEmail email domain pc).1).is_valid =
      (emailRegexMatch email && !domainMismatches domain email &&
        !patternFails pc email) := by
  unfold validateEmail
  simp only [hat, Bool.false_eq_true, if_false]
  split_ifs <;> simp_all
  all_goals norm_num

/-- Witness for C9 (amended) at a concrete well-formed email. -/
theorem c9_email_multipliers_witness :
    emailDomainRaises "jane@acme.com" = false ∧
    (((validateEmail "jane@acme.com" (some "acme.com") []).1).confidence =
      (if emailRegexMatch "jane@acme.com" then 1 else 3 / 10) *
      ((if domainMismatches (some "acme.com") "jane@acme.com" then 1 / 2 else 1) *
        (if patternFails [] "jane@acme.com" then 7 / 10 else 1)) ∧
    (((validateEmail "jane@acme.com" (some "acme.com") []).1).is_valid = true ↔
      ((validateEmail "jane@acme.com" (some "acme.com") []).1).errors = []) ∧
    ((validateEmail "jane@acme.com" (some "acme.com") []).1).is_valid =
      (emailRegexMatch "jane@acme.com" &&
        !domainMismatches (some "acme.com") "jane@acme.com" &&
        !patternFails [] "jane@acme.com")) :=
  ⟨rfl, c9_email_multipliers "jane@acme.com" (some "acme.com") [] rfl⟩

/-- C4: when the apollo source exhausts its retries (its `gather` slot
holds the raised `OrchestrationError`) while rocketreach returns a raw
candidate that passes contact validation, the enrichment still returns
zero contacts.  Iterating the exception object inside `_merge_results`
raises `TypeError`, whose handler discards the surviving source's results
(third conjunct); the call then ends in the line-222 `AttributeError`, so
the returned result is the top-level error result — empty either way
(fourth conjunct). -/
theorem c4_surviving_source_discarded :
    retryFailedSearch (fun _ => none) = (AgentOutcome.raised, 3, [1, 2]) ∧
    (validateContactInfo johnDoeRocket "acme.com" []).1 = true ∧
    (mergeResults AgentOutcome.raised (AgentOutcome.results [johnDoeRocket])
        "acme.com" []).1 = [] ∧
    (enrichCompany {} "Acme" "acme.com" false AgentOutcome.raised
        (AgentOutcome.results [johnDoeRocket]) 0).1.contacts = [] := by
  exact ⟨by decide, by decide, by decide, by decide⟩

/-- C5: a source agent whose search raises on every invocation is called
exactly 3 times by one dispatch (initial attempt plus 2 retries), with
sleeps of `2 ^ 0 = 1` and `2 ^ 1 = 2` seconds between attempts, before the
source is treated as failed. -/
theorem c5_retry_bound (search : Nat → Option (List Contact))
    (h : ∀ k, search k = none) :
    retryFailedSearch search = (AgentOutcome.raised, 3, [1, 2]) := by
  simp [retryFailedSearch, retrySearchGo, h]

/-- Witness for C5 at the always-raising search function. -/
theorem c5_retry_bound_witness :
    (∀ k, (fun _ : Nat => (none : Option (List Contact))) k = none) ∧
    retryFailedSearch (fun _ => none) = (AgentOutcome.raised, 3, [1, 2]) :=
  ⟨fun _ => rfl, c5_retry_bound (fun _ => none) (fun _ => rfl)⟩

/-- C7: `COMPLETE` is a sink for every event; from `ERROR`, the event
`{retry: true}` moves to `RETRYING` with `attempts` reset to 0, and every
other event leaves the context (hence the state) unchanged at `ERROR`. -/
theorem c7_terminal_states (ctx : NavContext) (e : NavEvent) :
    (ctx.current_state = NavState.complete → transition ctx e = ctx) ∧
    (ctx.current_state = NavState.error →
      (e.retry = true →
        (transition ctx e).current_state = NavState.retrying ∧
        (transition ctx e).attempts = 0) ∧
      (e.retry = false → transition ctx e = ctx)) := by
  constructor
  · intro h
    simp [transition, h]
  · intro h
    constructor
    · intro hr
      simp [transition, h, hr]
    · intro hr
      simp [transition, h, hr]

/-- Witness for C7 at concrete contexts and events. -/
theorem c7_terminal_states_witness :
    transition ctxComplete evRetry = ctxComplete ∧
    ((transition ctxError evRetry).current_state = NavState.retrying ∧
      (transition ctxError evRetry).attempts = 0) ∧
    transition ctxError evPlain = ctxError :=
  ⟨(c7_terminal_states ctxComplete evRetry).1 rfl,
   ((c7_terminal_states ctxError evRetry).2 rfl).1 rfl,
   ((c7_terminal_states ctxError evPlain).2 rfl).2 rfl⟩

/-- C8: the save/load round trip always fails.  `_save_state` writes the
enum's value string (for example `"initial"`), but `load_state` looks the
member up by name via `NavigationState[...]`, whose member names are the
upper-case identifiers, so it raises `KeyError` (uncaught: only
`FileNotFoundError` is handled) instead of reconstructing the context. -/
theorem c8_roundtrip_raises_keyerror (ctx : NavContext) :
    loadState (saveState ctx) = Except.error "KeyError" := by
  rcases ctx with ⟨cs, tc, tr, fp, fe, a, ma, conf, ah⟩
  cases cs <;> rfl

/-- C10: `_calculate_confidence` returns exactly `0.5` for every candidate
dict that lacks a `'sources'` key, whatever its own confidence, email or
title: the `result['sources']` access raises `KeyError` into the `except`
branch that returns the fallback. -/
theorem c10_missing_sources_half (c : Contact) (domain : String)
    (h : c.sources = none) : calculateConfidence c domain = 1 / 2 := by
  unfold calculateConfidence calculateConfidenceBody
  rw [h]
  rfl

/-- Witness for C10: a candidate with maximal own confidence, matching
email domain and matching title still scores `0.5`. -/
theorem c10_missing_sources_half_witness :
    johnDoeApollo.sources = none ∧
    calculateConfidence johnDoeApollo "acme.com" = 1 / 2 :=
  ⟨rfl, c10_missing_sources_half johnDoeApollo "acme.com" rfl⟩

end SalesAgent
